import Mathlib

/-!
Verification of the session/transport multiplexer of the remote-mcp-baseline
server (`src/server/index.ts` and its sibling variants).  The TypeScript
source is shallowly embedded: JSON values become an inductive `Json` type,
the JavaScript object maps (`transports`, `servers`, `sseTransports`,
`sseServers`) become association lists with unique keys maintained by
field assignment and deletion, and the Express request handlers become pure
functions from a wrapper state and request data to an HTTP outcome and a new
state.
-/

namespace RemoteMCP

/-- A JSON value as manipulated by the server: the parsed request body and the
response envelopes.  `num` carries an `Int` (the only numeric literal the
embedded code uses is the error code `-32000`). -/
inductive Json where
  | null : Json
  | bool : Bool → Json
  | num : Int → Json
  | str : String → Json
  | arr : List Json → Json
  | obj : List (String × Json) → Json
deriving Repr

/-- JavaScript truthiness of a value (`if (x)`, `x || y`): `null`/`undefined`,
`false`, `0` and the empty string are falsy; arrays and objects are truthy. -/
def jsTruthy : Json → Bool
  | .null => false
  | .bool b => b
  | .num n => n != 0
  | .str s => s != ""
  | .arr _ => true
  | .obj _ => true

/-- Property access `x.f` on a JSON value: defined fields of objects only;
on every other value (and absent fields) the result is `undefined`, here
`none`. -/
def getField : Json → String → Option Json
  | .obj fields, k => fields.lookup k
  | _, _ => none

/-- `body.method === 'initialize'`: the `method` property is the string
`"initialize"`. -/
def methodIsInitialize (b : Json) : Bool :=
  match getField b "method" with
  | some (.str s) => s == "initialize"
  | _ => false

/-- `isInitializeRequest` from `src/server/index.ts` lines 100-112:
falsy body → false; `body.method === 'initialize'` → true; an array body is
scanned with `some`; anything else → false. -/
def isInitializeRequest (body : Json) : Bool :=
  if !(jsTruthy body) then false
  else if methodIsInitialize body then true
  else
    match body with
    | .arr reqs => reqs.any (fun r => methodIsInitialize r)
    | _ => false

/-- `createErrorResponse` from `src/server/index.ts` lines 279-288: the
JSON-RPC error envelope `{jsonrpc: '2.0', error: {code: -32000, message}, id}`
(the `id` parameter defaults to `null` at every call site). -/
def createErrorResponse (message : String) (id : Json) : Json :=
  Json.obj [("jsonrpc", Json.str "2.0"),
            ("error", Json.obj [("code", Json.num (-32000)),
                                ("message", Json.str message)]),
            ("id", id)]

/-- Field assignment `m[k] = v` on a JavaScript object: overwrite the existing
binding in place, or append a fresh one. -/
def setField (m : List (String × α)) (k : String) (v : α) : List (String × α) :=
  match m with
  | [] => [(k, v)]
  | (k', v') :: rest => if k' = k then (k, v) :: rest else (k', v') :: setField rest k v

/-- Field deletion `delete m[k]` on a JavaScript object: every binding of `k`
disappears (object keys are unique, so at most one exists). -/
def deleteField (m : List (String × α)) (k : String) : List (String × α) :=
  match m with
  | [] => []
  | (k', v') :: rest =>
    if k' = k then deleteField rest k else (k', v') :: deleteField rest k

/-- Field read `m[k]` on a JavaScript object, `none` when the key is absent. -/
def lookupField (m : List (String × α)) (k : String) : Option α :=
  match m with
  | [] => none
  | (k', v) :: rest => if k' = k then some v else lookupField rest k

/-- Truthiness of the session-id header/query value (`if (sessionId)`):
present and nonempty. -/
def idPresent : Option String → Bool
  | none => false
  | some s => s != ""

/-- The wrapper's per-kind session registry: `transports` and `servers` from
`MCPServerWrapper`, keyed by session id.  `τ` is the transport object, `σ` the
`Server` instance. -/
structure WrapperState (τ σ : Type) where
  transports : List (String × τ)
  servers : List (String × σ)
deriving Repr

/-- How an Express handler concludes: an error response written with
`res.status(s).json(envelope)`, a forwarding of the request to a stored
transport (`transport.handleRequest`), a successful initialize that
registered a session, or an initialize whose transport produced no session
id (nothing registered). -/
inductive RouteResult where
  | errorResponse (status : Nat) (envelope : Json)
  | forwarded (sid : String)
  | initialized (sid : String)
  | initNoSession
deriving Repr

/-- Registration of a fresh session, `src/server/index.ts` lines 320-325:
`this.transports[sid] = transport; this.servers[sid] = server`. -/
def registerSession (st : WrapperState τ σ) (sid : String) (t : τ) (s : σ) :
    WrapperState τ σ :=
  { transports := setField st.transports sid t,
    servers := setField st.servers sid s }

/-- `MCPServerWrapper.cleanupSession`, `src/server/index.ts` lines 379-391:
when `transports[sid]` exists, close and delete `servers[sid]` if present,
delete `transports[sid]` and return true; otherwise return false. -/
def cleanupSession (st : WrapperState τ σ) (sid : String) :
    Bool × WrapperState τ σ :=
  match lookupField st.transports sid with
  | some _ =>
    let servers' :=
      match lookupField st.servers sid with
      | some _ => deleteField st.servers sid
      | none => st.servers
    (true, { transports := deleteField st.transports sid, servers := servers' })
  | none => (false, st)

/-- `MCPServerWrapper.getActiveSessions`, `src/server/index.ts` lines 375-377:
`Object.keys(this.transports).length`. -/
def getActiveSessions (st : WrapperState τ σ) : Nat :=
  st.transports.length

/-- `MCPServerWrapper.handlePostRequest`, `src/server/index.ts` lines 295-349.
`newTransport`/`newServer` stand for the freshly constructed
`StreamableHTTPServerTransport` and `Server` of the initialize path, and
`generatedId` for `transport.sessionId` after the transport handled the
initialize exchange (`some` when the SDK generated a session id). -/
def handlePostRequest (st : WrapperState τ σ) (sessionId? : Option String)
    (body : Json) (newTransport : τ) (newServer : σ)
    (generatedId : Option String) : RouteResult × WrapperState τ σ :=
  if isInitializeRequest body then
    if idPresent sessionId? then
      (.errorResponse 400
        (createErrorResponse "Initialize request must not include session ID" Json.null), st)
    else
      match generatedId with
      | some sid => (.initialized sid, registerSession st sid newTransport newServer)
      | none => (.initNoSession, st)
  else
    if !(idPresent sessionId?) then
      (.errorResponse 400
        (createErrorResponse "Mcp-Session-Id header is required" Json.null), st)
    else
      let sid := sessionId?.getD ""
      match lookupField st.transports sid with
      | none =>
        (.errorResponse 404 (createErrorResponse "Session not found" Json.null), st)
      | some _ => (.forwarded sid, st)

/-- `MCPServerWrapper.handleGetRequest`, `src/server/index.ts` lines 351-362:
`if (!sessionId || !this.transports[sessionId])` → status 400 with the
`"Bad Request"` envelope; otherwise forward to the stored transport. -/
def handleGetRequest (st : WrapperState τ σ) (sessionId? : Option String) :
    RouteResult :=
  if !(idPresent sessionId?) then
    .errorResponse 400 (createErrorResponse "Bad Request" Json.null)
  else
    let sid := sessionId?.getD ""
    match lookupField st.transports sid with
    | none => .errorResponse 400 (createErrorResponse "Bad Request" Json.null)
    | some _ => .forwarded sid

/-- A live legacy SSE session: the framed events so far written onto the
session's open `/sse` push connection. -/
structure SSESession where
  pushEvents : List Json
deriving Repr

/-- The wrapper's legacy-transport registry: `sseTransports` and `sseServers`
from `MCPServerWrapper` of the legacy-capable variant, keyed by the session id
the `SSEServerTransport` issued. -/
structure SSEState (σ : Type) where
  sseTransports : List (String × SSESession)
  sseServers : List (String × σ)
deriving Repr

/-- Modelled from the spec: `SSEServerTransport.handlePostMessage` is SDK code
absent from the repository's files; per the spec the HTTP response to the
side-channel POST is an acknowledgement only (an empty 200/202), and the
JSON-RPC result of the delivered message is written asynchronously as a
framed event onto the session's already-open push connection.  `dispatch`
stands for the connected server's message processing. -/
def handlePostMessage (dispatch : Json → Json) (sess : SSESession)
    (body : Json) : (Nat × Json) × SSESession :=
  ((202, Json.null), { pushEvents := sess.pushEvents ++ [dispatch body] })

/-- `MCPServerWrapper.handleLegacySSE` of the legacy-capable variant, lines
421-450 (registration, lines 432-435): a fresh `SSEServerTransport` bound to
the open response and a fresh server are stored together under the
transport's session id. -/
def handleLegacySSE (st : SSEState σ) (sid : String) (sess : SSESession)
    (server : σ) : SSEState σ :=
  { sseTransports := setField st.sseTransports sid sess,
    sseServers := setField st.sseServers sid server }

/-- `MCPServerWrapper.cleanupSSESession` of the legacy-capable variant, lines
537-556: when `sseTransports[sid]` exists, close and delete `sseServers[sid]`
if present, delete `sseTransports[sid]` and return true; otherwise return
false. -/
def cleanupSSESession (st : SSEState σ) (sid : String) : Bool × SSEState σ :=
  match lookupField st.sseTransports sid with
  | some _ =>
    let sseServers' :=
      match lookupField st.sseServers sid with
      | some _ => deleteField st.sseServers sid
      | none => st.sseServers
    (true, { sseTransports := deleteField st.sseTransports sid,
             sseServers := sseServers' })
  | none => (false, st)

/-- `MCPServerWrapper.handleLegacyMessages` of the legacy-capable variant,
lines 463-500: missing/empty `sessionId` query parameter → 400; session id
not in `sseTransports` → 404; otherwise the body is handed to
`transport.handlePostMessage`.  The result pairs the HTTP response written to
the POST (status, body) with the updated state. -/
def handleLegacyMessages (dispatch : Json → Json) (st : SSEState σ)
    (sessionId? : Option String) (body : Json) : (Nat × Json) × SSEState σ :=
  if !(idPresent sessionId?) then
    ((400, createErrorResponse "sessionId query parameter is required" Json.null), st)
  else
    let sid := sessionId?.getD ""
    match lookupField st.sseTransports sid with
    | none => ((404, createErrorResponse "Session not found" Json.null), st)
    | some sess =>
      let r := handlePostMessage dispatch sess body
      (r.1, { st with sseTransports := setField st.sseTransports sid r.2 })

/-- `x || fallback` on a possibly-undefined JSON value: the value itself when
defined and truthy, the fallback otherwise. -/
def jsOr (x : Option Json) (fallback : Json) : Json :=
  match x with
  | some v => if jsTruthy v then v else fallback
  | none => fallback

/-- The text of the `echo` tool case in `createMCPServer`'s
`CallToolRequestSchema` handler, `src/server/index.ts` line 147:
`args?.message || 'Hello from MCP Server!'`.  `args` is `none` when the call
carried no `arguments` object. -/
def echoText (args : Option Json) : Json :=
  jsOr (args.bind (fun a => getField a "message")) (Json.str "Hello from MCP Server!")

/-- The full result of the `echo` tool case, `src/server/index.ts` lines
142-150: `{content: [{type: 'text', text: args?.message || '...'}]}`. -/
def callToolEcho (args : Option Json) : Json :=
  Json.obj [("content", Json.arr [Json.obj
    [("type", Json.str "text"), ("text", echoText args)]])]

/-- One session-lifecycle operation on the wrapper: creation (the
registration step of a successfully initialized session) or termination
(`cleanupSession`, also reached from the DELETE routes and disconnect
callbacks). -/
inductive SessionOp where
  | create (sid : String)
  | terminate (sid : String)
deriving Repr

/-- Apply one lifecycle operation to the wrapper state (transport and server
objects are irrelevant to counting, so `Unit` stands in for both). -/
def applyOp (st : WrapperState Unit Unit) : SessionOp → WrapperState Unit Unit
  | .create sid => registerSession st sid () ()
  | .terminate sid => (cleanupSession st sid).2

/-- The wrapper state after a finite interleaved sequence of create/terminate
operations, starting from the empty registry a fresh `MCPServerWrapper`
holds. -/
def applyOps (ops : List SessionOp) : WrapperState Unit Unit :=
  ops.foldl applyOp { transports := [], servers := [] }

/-- One step of the created-and-not-yet-terminated id set. -/
def liveStep (s : Finset String) : SessionOp → Finset String
  | .create sid => insert sid s
  | .terminate sid => s.erase sid

/-- The ids of the sessions that have been created and not yet terminated by
a sequence of lifecycle operations. -/
def liveIds (ops : List SessionOp) : Finset String :=
  ops.foldl liveStep ∅

/-- The invariant that the `transports` and `servers` maps register exactly
the same session ids. -/
def keysSame (st : WrapperState τ σ) : Prop :=
  ∀ sid, (lookupField st.transports sid).isSome = (lookupField st.servers sid).isSome

/-- The invariant that the `sseTransports` and `sseServers` maps register
exactly the same session ids. -/
def sseKeysSame (st : SSEState σ) : Prop :=
  ∀ sid, (lookupField st.sseTransports sid).isSome
    = (lookupField st.sseServers sid).isSome

theorem lookupField_setField_self (m : List (String × α)) (k : String) (v : α) :
    lookupField (setField m k v) k = some v := by
  induction m with
  | nil => simp [setField, lookupField]
  | cons p rest ih =>
    obtain ⟨k', v'⟩ := p
    by_cases h : k' = k
    · simp [setField, h, lookupField]
    · simp [setField, h, lookupField, ih]

theorem lookupField_setField_ne (m : List (String × α)) (k a : String) (v : α)
    (h : a ≠ k) : lookupField (setField m k v) a = lookupField m a := by
  have h' : ¬k = a := fun e => h e.symm
  induction m with
  | nil => simp [setField, lookupField, h']
  | cons p rest ih =>
    obtain ⟨k', v'⟩ := p
    by_cases hk : k' = k
    · subst hk
      simp [setField, lookupField, h']
    · simp [setField, hk, lookupField, ih]

theorem lookupField_deleteField_self (m : List (String × α)) (k : String) :
    lookupField (deleteField m k) k = none := by
  induction m with
  | nil => simp [deleteField, lookupField]
  | cons p rest ih =>
    obtain ⟨k', v'⟩ := p
    by_cases h : k' = k
    · simpa [deleteField, h] using ih
    · simpa [deleteField, lookupField, h] using ih

theorem lookupField_deleteField_ne (m : List (String × α)) (k a : String)
    (h : a ≠ k) : lookupField (deleteField m k) a = lookupField m a := by
  have h' : ¬k = a := fun e => h e.symm
  induction m with
  | nil => simp [deleteField, lookupField]
  | cons p rest ih =>
    obtain ⟨k', v'⟩ := p
    by_cases hk : k' = k
    · subst hk
      simpa [deleteField, lookupField, h'] using ih
    · simp [deleteField, lookupField, hk, ih]

theorem lookupField_eq_none_iff (m : List (String × α)) (k : String) :
    lookupField m k = none ↔ k ∉ m.map Prod.fst := by
  induction m with
  | nil => simp [lookupField]
  | cons p rest ih =>
    obtain ⟨k', v'⟩ := p
    by_cases h : k' = k
    · simp [lookupField, h]
    · have h2 : ¬k = k' := fun e => h e.symm
      simp only [lookupField, if_neg h, List.map_cons, List.mem_cons, ih]
      tauto

theorem mem_keys_setField (m : List (String × α)) (k a : String) (v : α) :
    a ∈ (setField m k v).map Prod.fst ↔ a = k ∨ a ∈ m.map Prod.fst := by
  induction m with
  | nil => simp [setField]
  | cons p rest ih =>
    obtain ⟨k', v'⟩ := p
    by_cases h : k' = k
    · subst h
      have hset : setField ((k', v') :: rest) k' v = (k', v) :: rest := by
        simp [setField]
      rw [hset]
      simp only [List.map_cons, List.mem_cons]
      tauto
    · simp only [setField, if_neg h, List.map_cons, List.mem_cons, ih]
      tauto

theorem mem_keys_deleteField (m : List (String × α)) (k a : String) :
    a ∈ (deleteField m k).map Prod.fst ↔ a ∈ m.map Prod.fst ∧ a ≠ k := by
  induction m with
  | nil => simp [deleteField]
  | cons p rest ih =>
    obtain ⟨k', v'⟩ := p
    by_cases h : k' = k
    · subst h
      have hdel : deleteField ((k', v') :: rest) k' = deleteField rest k' := by
        simp [deleteField]
      rw [hdel]
      simp only [List.map_cons, List.mem_cons, ih]
      constructor
      · tauto
      · rintro ⟨hk | hm, hne⟩
        · exact absurd hk hne
        · exact ⟨hm, hne⟩
    · simp only [deleteField, if_neg h, List.map_cons, List.mem_cons, ih]
      constructor
      · rintro (he | ⟨hm, hne⟩)
        · exact ⟨Or.inl he, fun e => h (he ▸ e)⟩
        · exact ⟨Or.inr hm, hne⟩
      · rintro ⟨he | hm, hne⟩
        · exact Or.inl he
        · exact Or.inr ⟨hm, hne⟩

theorem nodup_keys_setField (m : List (String × α)) (k : String) (v : α)
    (h : (m.map Prod.fst).Nodup) : ((setField m k v).map Prod.fst).Nodup := by
  induction m with
  | nil => simp [setField]
  | cons p rest ih =>
    obtain ⟨k', v'⟩ := p
    simp only [List.map_cons, List.nodup_cons] at h
    by_cases hk : k' = k
    · subst hk
      have hset : setField ((k', v') :: rest) k' v = (k', v) :: rest := by
        simp [setField]
      rw [hset]
      simp only [List.map_cons, List.nodup_cons]
      exact h
    · simp only [setField, if_neg hk, List.map_cons, List.nodup_cons]
      refine ⟨?_, ih h.2⟩
      rw [mem_keys_setField]
      push_neg
      exact ⟨hk, h.1⟩

theorem nodup_keys_deleteField (m : List (String × α)) (k : String)
    (h : (m.map Prod.fst).Nodup) : ((deleteField m k).map Prod.fst).Nodup := by
  induction m with
  | nil => simp [deleteField]
  | cons p rest ih =>
    obtain ⟨k', v'⟩ := p
    simp only [List.map_cons, List.nodup_cons] at h
    by_cases hk : k' = k
    · subst hk
      simpa [deleteField] using ih h.2
    · simp only [deleteField, if_neg hk, List.map_cons, List.nodup_cons]
      refine ⟨?_, ih h.2⟩
      rw [mem_keys_deleteField]
      rintro ⟨hm, _⟩
      exact h.1 hm

theorem toFinset_keys_setField (m : List (String × α)) (k : String) (v : α) :
    ((setField m k v).map Prod.fst).toFinset
      = insert k (m.map Prod.fst).toFinset := by
  ext a
  simp only [List.mem_toFinset, Finset.mem_insert, mem_keys_setField]

theorem toFinset_keys_deleteField (m : List (String × α)) (k : String) :
    ((deleteField m k).map Prod.fst).toFinset
      = (m.map Prod.fst).toFinset.erase k := by
  ext a
  simp only [List.mem_toFinset, Finset.mem_erase, mem_keys_deleteField]
  tauto

theorem toFinset_keys_cleanupSession (st : WrapperState τ σ) (sid : String) :
    (((cleanupSession st sid).2).transports.map Prod.fst).toFinset
      = (st.transports.map Prod.fst).toFinset.erase sid := by
  cases ht : lookupField st.transports sid with
  | some t =>
    simp only [cleanupSession, ht]
    exact toFinset_keys_deleteField _ _
  | none =>
    have hm : sid ∉ st.transports.map Prod.fst :=
      (lookupField_eq_none_iff _ _).mp ht
    simp only [cleanupSession, ht]
    rw [Finset.erase_eq_of_not_mem (by simpa using hm)]

theorem nodup_keys_cleanupSession (st : WrapperState τ σ) (sid : String)
    (h : (st.transports.map Prod.fst).Nodup) :
    ((((cleanupSession st sid).2).transports).map Prod.fst).Nodup := by
  cases ht : lookupField st.transports sid with
  | some t =>
    simp only [cleanupSession, ht]
    exact nodup_keys_deleteField _ _ h
  | none =>
    simpa [cleanupSession, ht] using h

theorem applyOp_keys (st : WrapperState Unit Unit) (op : SessionOp)
    (h : (st.transports.map Prod.fst).Nodup) :
    ((applyOp st op).transports.map Prod.fst).Nodup ∧
    ((applyOp st op).transports.map Prod.fst).toFinset
      = liveStep (st.transports.map Prod.fst).toFinset op := by
  cases op with
  | create sid =>
    constructor
    · exact nodup_keys_setField _ _ _ h
    · simpa [applyOp, registerSession, liveStep] using
        toFinset_keys_setField st.transports sid ()
  | terminate sid =>
    constructor
    · exact nodup_keys_cleanupSession st sid h
    · simpa [applyOp, liveStep] using toFinset_keys_cleanupSession st sid

theorem foldl_applyOp_keys (ops : List SessionOp) (st : WrapperState Unit Unit)
    (h : (st.transports.map Prod.fst).Nodup) :
    ((ops.foldl applyOp st).transports.map Prod.fst).Nodup ∧
    ((ops.foldl applyOp st).transports.map Prod.fst).toFinset
      = ops.foldl liveStep (st.transports.map Prod.fst).toFinset := by
  induction ops generalizing st with
  | nil => exact ⟨h, rfl⟩
  | cons op ops ih =>
    have hstep := applyOp_keys st op h
    have hmain := ih (applyOp st op) hstep.1
    refine ⟨hmain.1, ?_⟩
    simp only [List.foldl_cons]
    rw [hmain.2, hstep.2]

theorem keysSame_registerSession (st : WrapperState τ σ) (sid : String)
    (t : τ) (s : σ) (h : keysSame st) : keysSame (registerSession st sid t s) := by
  intro a
  by_cases ha : a = sid
  · subst ha
    simp [registerSession, lookupField_setField_self]
  · simp [registerSession, lookupField_setField_ne _ _ _ _ ha, h a]

theorem keysSame_cleanupSession (st : WrapperState τ σ) (sid : String)
    (h : keysSame st) : keysSame (cleanupSession st sid).2 := by
  cases ht : lookupField st.transports sid with
  | none => simpa [cleanupSession, ht] using h
  | some t =>
    have hsv : (lookupField st.servers sid).isSome = true := by
      rw [← h sid, ht]
      rfl
    obtain ⟨s, hs⟩ := Option.isSome_iff_exists.mp hsv
    intro a
    by_cases ha : a = sid
    · subst ha
      simp [cleanupSession, ht, hs, lookupField_deleteField_self]
    · simp [cleanupSession, ht, hs, lookupField_deleteField_ne _ _ _ ha, h a]

theorem sseKeysSame_handleLegacySSE (st : SSEState σ) (sid : String)
    (sess : SSESession) (srv : σ) (h : sseKeysSame st) :
    sseKeysSame (handleLegacySSE st sid sess srv) := by
  intro a
  by_cases ha : a = sid
  · subst ha
    simp [handleLegacySSE, lookupField_setField_self]
  · simp [handleLegacySSE, lookupField_setField_ne _ _ _ _ ha, h a]

theorem sseKeysSame_cleanupSSESession (st : SSEState σ) (sid : String)
    (h : sseKeysSame st) : sseKeysSame (cleanupSSESession st sid).2 := by
  cases ht : lookupField st.sseTransports sid with
  | none => simpa [cleanupSSESession, ht] using h
  | some t =>
    have hsv : (lookupField st.sseServers sid).isSome = true := by
      rw [← h sid, ht]
      rfl
    obtain ⟨s, hs⟩ := Option.isSome_iff_exists.mp hsv
    intro a
    by_cases ha : a = sid
    · subst ha
      simp [cleanupSSESession, ht, hs, lookupField_deleteField_self]
    · simp [cleanupSSESession, ht, hs, lookupField_deleteField_ne _ _ _ ha, h a]

/-- C1 counterexample: a modern GET that supplies the session identifier
`"ghost"` while only `"live"` has a live session is answered with HTTP 400
and the generic `"Bad Request"` envelope, not with `SessionNotFound` and
HTTP 404 as the claim states. -/
theorem modern_get_unknown_session_not_404 :
    handleGetRequest
        (WrapperState.mk [("live", ())] ([("live", ())] : List (String × Unit)))
        (some "ghost")
      = RouteResult.errorResponse 400 (createErrorResponse "Bad Request" Json.null) ∧
    handleGetRequest
        (WrapperState.mk [("live", ())] ([("live", ())] : List (String × Unit)))
        (some "ghost")
      ≠ RouteResult.errorResponse 404 (createErrorResponse "Session not found" Json.null) := by
  constructor
  · rfl
  · intro h
    have h1 : handleGetRequest
        (WrapperState.mk [("live", ())] ([("live", ())] : List (String × Unit)))
        (some "ghost")
      = RouteResult.errorResponse 400 (createErrorResponse "Bad Request" Json.null) := rfl
    have h2 := h1.symm.trans h
    simp at h2

/-- C1 (amended): for every modern-transport GET request, both the
missing-identifier case and the unknown-identifier case are answered by one
collapsed check with HTTP 400 and the `"Bad Request"` envelope; the
unknown-session case is not distinguished with `SessionNotFound`/404 the way
the POST path distinguishes it. -/
theorem modern_get_collapsed_bad_request (τ σ : Type) (st : WrapperState τ σ)
    (sessionId? : Option String)
    (h : idPresent sessionId? = false
      ∨ lookupField st.transports (sessionId?.getD "") = none) :
    handleGetRequest st sessionId?
      = RouteResult.errorResponse 400 (createErrorResponse "Bad Request" Json.null) := by
  unfold handleGetRequest
  rcases h with h | h
  · simp [h]
  · by_cases hp : idPresent sessionId?
    · simp [hp, h]
    · simp [hp]

/-- C1 witness: the amended statement evaluated at the concrete state holding
the single live session `"live"` and the unknown identifier `"ghost"`. -/
theorem modern_get_collapsed_bad_request_witness :
    handleGetRequest
        (WrapperState.mk [("live", ())] ([("live", ())] : List (String × Unit)))
        (some "ghost")
      = RouteResult.errorResponse 400 (createErrorResponse "Bad Request" Json.null) :=
  modern_get_collapsed_bad_request Unit Unit
    (WrapperState.mk [("live", ())] [("live", ())]) (some "ghost")
    (Or.inr rfl)

/-- C2: a legacy side-channel POST to `/messages` that addresses a live
legacy session is answered with the 202 acknowledgement and an empty body;
the JSON-RPC result of the delivered message is appended as a framed event to
the session's already-open push connection, and never appears in the POST's
own response body. -/
theorem legacy_messages_ack_and_push (σ : Type) (dispatch : Json → Json)
    (st : SSEState σ) (sid : String) (sess : SSESession) (body : Json)
    (hsid : sid ≠ "") (hlk : lookupField st.sseTransports sid = some sess) :
    (handleLegacyMessages dispatch st (some sid) body).1 = (202, Json.null) ∧
    lookupField (handleLegacyMessages dispatch st (some sid) body).2.sseTransports sid
      = some (SSESession.mk (sess.pushEvents ++ [dispatch body])) ∧
    (handleLegacyMessages dispatch st (some sid) body).2.sseServers
      = st.sseServers := by
  have hp : idPresent (some sid) = true := by simp [idPresent, hsid]
  refine ⟨?_, ?_, ?_⟩ <;>
    simp [handleLegacyMessages, hp, hlk, handlePostMessage, lookupField_setField_self]

/-- C2 witness: the theorem evaluated at a session `"T"` with an empty push
stream and an identity dispatcher delivering the message `"init"`. -/
theorem legacy_messages_ack_and_push_witness :
    (handleLegacyMessages (fun j => j)
        (SSEState.mk [("T", SSESession.mk [])] ([] : List (String × Unit)))
        (some "T") (Json.str "init")).1 = (202, Json.null) ∧
    lookupField (handleLegacyMessages (fun j => j)
        (SSEState.mk [("T", SSESession.mk [])] ([] : List (String × Unit)))
        (some "T") (Json.str "init")).2.sseTransports "T"
      = some (SSESession.mk [Json.str "init"]) ∧
    (handleLegacyMessages (fun j => j)
        (SSEState.mk [("T", SSESession.mk [])] ([] : List (String × Unit)))
        (some "T") (Json.str "init")).2.sseServers = [] :=
  legacy_messages_ack_and_push Unit (fun j => j)
    (SSEState.mk [("T", SSESession.mk [])] []) "T" (SSESession.mk [])
    (Json.str "init") (by decide) rfl

/-- C3: a POST whose payload is an initialize message and which carries a
session identifier is answered with HTTP 400 and the
`UnexpectedSessionId` envelope, and the wrapper state is returned unchanged:
no session is created and no handler is registered. -/
theorem initialize_with_session_id_rejected (τ σ : Type) (st : WrapperState τ σ)
    (sid : String) (body : Json) (t : τ) (s : σ) (gid : Option String)
    (hinit : isInitializeRequest body = true) (hsid : sid ≠ "") :
    handlePostRequest st (some sid) body t s gid
      = (RouteResult.errorResponse 400
          (createErrorResponse "Initialize request must not include session ID" Json.null),
         st) := by
  have hp : idPresent (some sid) = true := by simp [idPresent, hsid]
  simp [handlePostRequest, hinit, hp]

/-- C3 witness: the theorem evaluated at the empty wrapper state, the header
value `"abc"` and a single initialize message. -/
theorem initialize_with_session_id_rejected_witness :
    handlePostRequest
        (WrapperState.mk ([] : List (String × Unit)) ([] : List (String × Unit)))
        (some "abc") (Json.obj [("method", Json.str "initialize")]) () () none
      = (RouteResult.errorResponse 400
          (createErrorResponse "Initialize request must not include session ID" Json.null),
         WrapperState.mk [] []) :=
  initialize_with_session_id_rejected Unit Unit (WrapperState.mk [] [])
    "abc" (Json.obj [("method", Json.str "initialize")]) () () none rfl (by decide)

/-- C4: for a POST whose payload is not an initialize message, a missing
(or empty) session identifier is answered with HTTP 400 and the
`MissingSessionId` envelope, and a supplied identifier with no live session
with HTTP 404 and the `SessionNotFound` envelope; the two error kinds are
distinct (distinct status and distinct envelope), and both are produced with
the state unchanged, before the request is ever forwarded to a transport. -/
theorem non_initialize_session_checks (τ σ : Type) (st : WrapperState τ σ)
    (body : Json) (t : τ) (s : σ) (gid : Option String)
    (hbody : isInitializeRequest body = false) :
    (∀ sessionId?, idPresent sessionId? = false →
        handlePostRequest st sessionId? body t s gid
          = (RouteResult.errorResponse 400
              (createErrorResponse "Mcp-Session-Id header is required" Json.null), st)) ∧
    (∀ sid, sid ≠ "" → lookupField st.transports sid = none →
        handlePostRequest st (some sid) body t s gid
          = (RouteResult.errorResponse 404
              (createErrorResponse "Session not found" Json.null), st)) ∧
    (400 : Nat) ≠ 404 ∧
    createErrorResponse "Mcp-Session-Id header is required" Json.null
      ≠ createErrorResponse "Session not found" Json.null := by
  refine ⟨?_, ?_, by decide, ?_⟩
  · intro sessionId? h
    simp [handlePostRequest, hbody, h]
  · intro sid hne hlk
    have hp : idPresent (some sid) = true := by simp [idPresent, hne]
    simp [handlePostRequest, hbody, hp, hlk]
  · intro h
    simp [createErrorResponse] at h

/-- C4 witness: the theorem evaluated at the empty wrapper state and a
non-initialize payload, covering the missing-identifier and
unknown-identifier branches. -/
theorem non_initialize_session_checks_witness :
    (∀ sessionId?, idPresent sessionId? = false →
        handlePostRequest
            (WrapperState.mk ([] : List (String × Unit)) ([] : List (String × Unit)))
            sessionId? Json.null () () none
          = (RouteResult.errorResponse 400
              (createErrorResponse "Mcp-Session-Id header is required" Json.null),
             WrapperState.mk [] [])) ∧
    (∀ sid, sid ≠ "" →
        lookupField (WrapperState.mk ([] : List (String × Unit))
            ([] : List (String × Unit))).transports sid = none →
        handlePostRequest
            (WrapperState.mk ([] : List (String × Unit)) ([] : List (String × Unit)))
            (some sid) Json.null () () none
          = (RouteResult.errorResponse 404
              (createErrorResponse "Session not found" Json.null),
             WrapperState.mk [] [])) ∧
    (400 : Nat) ≠ 404 ∧
    createErrorResponse "Mcp-Session-Id header is required" Json.null
      ≠ createErrorResponse "Session not found" Json.null :=
  non_initialize_session_checks Unit Unit (WrapperState.mk [] [])
    Json.null () () none rfl

/-- C5 counterexample: the envelope the Error Responder builds has no
`protocolVersion` member at all; its version member is keyed `jsonrpc`. -/
theorem error_envelope_no_protocol_version :
    getField (createErrorResponse "Session not found" Json.null) "protocolVersion"
      = none ∧
    getField (createErrorResponse "Session not found" Json.null) "jsonrpc"
      = some (Json.str "2.0") :=
  ⟨rfl, rfl⟩

/-- C5 (amended): for every message and id, the Error Responder builds
exactly the JSON-RPC error envelope
`{jsonrpc: "2.0", error: {code: -32000, message}, id}` (the version member
is keyed `jsonrpc`, not `protocolVersion`). -/
theorem error_envelope_jsonrpc_shape (message : String) (id : Json) :
    createErrorResponse message id
      = Json.obj [("jsonrpc", Json.str "2.0"),
                  ("error", Json.obj [("code", Json.num (-32000)),
                                      ("message", Json.str message)]),
                  ("id", id)] ∧
    getField (createErrorResponse message id) "jsonrpc" = some (Json.str "2.0") ∧
    getField (createErrorResponse message id) "error"
      = some (Json.obj [("code", Json.num (-32000)), ("message", Json.str message)]) ∧
    getField (createErrorResponse message id) "id" = some id :=
  ⟨rfl, rfl, rfl, rfl⟩

/-- C6: the Initialize Detector returns true exactly when the payload is a
single message whose `method` is `"initialize"` or a batch one of whose
elements has that method; in particular a null body and an empty batch yield
false.  Purity holds by construction: the detector is a function of the
payload alone. -/
theorem initialize_detector_iff :
    (∀ body, isInitializeRequest body = true ↔
        methodIsInitialize body = true ∨
          ∃ reqs, body = Json.arr reqs ∧ ∃ r ∈ reqs, methodIsInitialize r = true) ∧
    isInitializeRequest Json.null = false ∧
    isInitializeRequest (Json.arr []) = false := by
  refine ⟨?_, rfl, rfl⟩
  intro body
  cases body with
  | null => simp [isInitializeRequest, methodIsInitialize, getField, jsTruthy]
  | bool b =>
    cases b <;> simp [isInitializeRequest, methodIsInitialize, getField, jsTruthy]
  | num n =>
    by_cases h : n = 0 <;>
      simp [isInitializeRequest, methodIsInitialize, getField, jsTruthy, h]
  | str s =>
    by_cases h : s = "" <;>
      simp [isInitializeRequest, methodIsInitialize, getField, jsTruthy, h]
  | arr reqs =>
    simp [isInitializeRequest, methodIsInitialize, getField, jsTruthy,
      List.any_eq_true]
  | obj fields =>
    cases hm : methodIsInitialize (Json.obj fields) <;>
      simp [isInitializeRequest, jsTruthy, hm]

theorem cleanupSession_absent (st : WrapperState τ σ) (sid : String)
    (h : lookupField st.transports sid = none) :
    (cleanupSession st sid).1 = false := by
  simp [cleanupSession, h]

theorem cleanupSSESession_absent (st : SSEState σ) (sid : String)
    (h : lookupField st.sseTransports sid = none) :
    (cleanupSSESession st sid).1 = false := by
  simp [cleanupSSESession, h]

/-- C7: for both session kinds, registering a session then reading it back
returns exactly what was registered; after removal the lookup reports
nothing; removal returns true exactly when the id was present; and a second
removal of the same id returns false rather than failing. -/
theorem session_store_roundtrip (τ σ : Type) (st : WrapperState τ σ)
    (sst : SSEState σ) (sid : String) (t : τ) (s : σ) (sess : SSESession)
    (srv : σ) :
    lookupField (registerSession st sid t s).transports sid = some t ∧
    lookupField (registerSession st sid t s).servers sid = some s ∧
    lookupField ((cleanupSession st sid).2).transports sid = none ∧
    ((cleanupSession st sid).1 = true ↔ (lookupField st.transports sid).isSome = true) ∧
    (cleanupSession ((cleanupSession st sid).2) sid).1 = false ∧
    lookupField (handleLegacySSE sst sid sess srv).sseTransports sid = some sess ∧
    lookupField ((cleanupSSESession sst sid).2).sseTransports sid = none ∧
    ((cleanupSSESession sst sid).1 = true
      ↔ (lookupField sst.sseTransports sid).isSome = true) ∧
    (cleanupSSESession ((cleanupSSESession sst sid).2) sid).1 = false := by
  have h3 : lookupField ((cleanupSession st sid).2).transports sid = none := by
    cases ht : lookupField st.transports sid with
    | some t' => simp [cleanupSession, ht, lookupField_deleteField_self]
    | none => simp [cleanupSession, ht]
  have h7 : lookupField ((cleanupSSESession sst sid).2).sseTransports sid = none := by
    cases ht : lookupField sst.sseTransports sid with
    | some t' => simp [cleanupSSESession, ht, lookupField_deleteField_self]
    | none => simp [cleanupSSESession, ht]
  refine ⟨lookupField_setField_self _ _ _, lookupField_setField_self _ _ _,
    h3, ?_, ?_, lookupField_setField_self _ _ _, h7, ?_, ?_⟩
  · cases ht : lookupField st.transports sid with
    | some t' => simp [cleanupSession, ht]
    | none => simp [cleanupSession, ht]
  · exact cleanupSession_absent _ _ h3
  · cases ht : lookupField sst.sseTransports sid with
    | some t' => simp [cleanupSSESession, ht]
    | none => simp [cleanupSSESession, ht]
  · exact cleanupSSESession_absent _ _ h7

/-- C8: after any finite interleaved sequence of create/terminate
operations, the active-session count reported by `getActiveSessions` equals
the number of session ids that have been created and not yet terminated. -/
theorem active_sessions_eq_live (ops : List SessionOp) :
    getActiveSessions (applyOps ops) = (liveIds ops).card := by
  have h := foldl_applyOp_keys ops
    (WrapperState.mk ([] : List (String × Unit)) ([] : List (String × Unit)))
    (by simp)
  have hstart :
      (((WrapperState.mk ([] : List (String × Unit))
          ([] : List (String × Unit))).transports.map Prod.fst).toFinset)
        = (∅ : Finset String) := rfl
  rw [hstart] at h
  calc getActiveSessions (applyOps ops)
      = ((applyOps ops).transports.map Prod.fst).length := by
        simp [getActiveSessions]
    _ = ((applyOps ops).transports.map Prod.fst).toFinset.card :=
        (List.toFinset_card_of_nodup h.1).symm
    _ = (liveIds ops).card := by
        rw [show ((applyOps ops).transports.map Prod.fst).toFinset
            = ops.foldl liveStep ∅ from h.2]
        rfl

/-- C9: session registration on initialize, explicit cleanup (also the path
the DELETE routes and disconnect callbacks take) and their legacy-SSE
counterparts all preserve the invariant that the transports map and the
servers map hold exactly the same session ids: an id is registered in both
maps together and deleted from both together. -/
theorem session_maps_keys_aligned (τ σ : Type) (st : WrapperState τ σ)
    (sst : SSEState σ) (sid : String) (t : τ) (s : σ) (sess : SSESession)
    (srv : σ) (h : keysSame st) (hs : sseKeysSame sst) :
    keysSame (registerSession st sid t s) ∧
    keysSame (cleanupSession st sid).2 ∧
    sseKeysSame (handleLegacySSE sst sid sess srv) ∧
    sseKeysSame (cleanupSSESession sst sid).2 :=
  ⟨keysSame_registerSession st sid t s h,
   keysSame_cleanupSession st sid h,
   sseKeysSame_handleLegacySSE sst sid sess srv hs,
   sseKeysSame_cleanupSSESession sst sid hs⟩

/-- C9 witness: the invariant preservation evaluated at the empty wrapper
state and the session id `"s1"`. -/
theorem session_maps_keys_aligned_witness :
    keysSame (registerSession
        (WrapperState.mk ([] : List (String × Unit)) ([] : List (String × Unit)))
        "s1" () ()) ∧
    keysSame (cleanupSession
        (WrapperState.mk ([] : List (String × Unit)) ([] : List (String × Unit)))
        "s1").2 ∧
    sseKeysSame (handleLegacySSE
        (SSEState.mk [] ([] : List (String × Unit))) "s1" (SSESession.mk []) ()) ∧
    sseKeysSame (cleanupSSESession
        (SSEState.mk [] ([] : List (String × Unit))) "s1").2 :=
  session_maps_keys_aligned Unit Unit (WrapperState.mk [] []) (SSEState.mk [] [])
    "s1" () () (SSESession.mk []) () (fun _ => rfl) (fun _ => rfl)

/-- C10: the `echo` tool answers with the fallback text
`"Hello from MCP Server!"` whenever the `message` argument is absent or
falsy (in particular the empty string), and echoes the supplied value back
verbatim exactly when it is truthy. -/
theorem echo_message_fallback :
    (∀ args, callToolEcho args
        = Json.obj [("content", Json.arr [Json.obj
            [("type", Json.str "text"), ("text", echoText args)]])]) ∧
    echoText none = Json.str "Hello from MCP Server!" ∧
    (∀ a, getField a "message" = none →
        echoText (some a) = Json.str "Hello from MCP Server!") ∧
    (∀ a, getField a "message" = some (Json.str "") →
        echoText (some a) = Json.str "Hello from MCP Server!") ∧
    (∀ a v, getField a "message" = some v → jsTruthy v = false →
        echoText (some a) = Json.str "Hello from MCP Server!") ∧
    (∀ a v, getField a "message" = some v → jsTruthy v = true →
        echoText (some a) = v) := by
  refine ⟨fun args => rfl, rfl, ?_, ?_, ?_, ?_⟩
  · intro a h
    simp [echoText, jsOr, h]
  · intro a h
    simp [echoText, jsOr, h, jsTruthy]
  · intro a v h ht
    simp [echoText, jsOr, h, ht]
  · intro a v h ht
    simp [echoText, jsOr, h, ht]

end RemoteMCP
